import Mathlib

/-!
Verification of the `ppm` process-manager supervisor engine.

The definitions below are a shallow embedding of the Rust sources:

* `src/service/status.rs`, `src/service/info.rs`, `src/service.rs` —
  the per-service state machine;
* `src/monitor/scheduler.rs` — the event queue with source-uniqueness;
* `src/service/watch.rs` — the filesystem-event filter;
* `src/monitor/logger/logfile.rs` — the rotating log file;
* `src/utils/serializers/instant.rs` — the monotonic/wall-clock bridge;
* `src/monitor.rs`, `src/cmdline/server.rs` — monitor insert/remove and
  the control-channel handlers.

Times (both `Instant` and `SystemTime`) are modelled as natural numbers;
calls to `now()` inside the Rust code become explicit `now` parameters.
Fallible checked arithmetic (`checked_sub`/`checked_add` with `unwrap`)
is modelled with `Option`.
-/

namespace Ppm

/-- `Status` from `src/service/status.rs`. -/
inductive Status where
  | Created
  | Running
  | Finished
  | Stopped
  | Crashed
deriving DecidableEq, Repr

/-- `Info` from `src/service/info.rs` (runtime fields of a service).
`pid` is a `libc::pid_t`, modelled as `Nat`; the two times are
`Option<SystemTime>` modelled as `Option Nat`. -/
structure Info where
  pid : Option Nat
  active : Bool
  status : Status
  start_time : Option Nat
  end_time : Option Nat
  restarts : Nat
deriving DecidableEq, Repr

namespace Info

/-- `impl Default for Info` (`src/service/info.rs:91-102`). -/
def default : Info :=
  { pid := none
    active := true
    status := .Created
    start_time := none
    end_time := none
    restarts := 0 }

/-- `Info::set_running` (`src/service/info.rs:105-125`).  The Rust code
reads `SystemTime::now()`; it is passed here as `now`. -/
def set_running (info : Info) (pid : Nat) (now : Nat) : Info :=
  match info.status with
  | .Created | .Finished | .Crashed =>
    { info with
      pid := some pid
      start_time := some now
      restarts := info.restarts + 1
      status := .Running
      end_time := none }
  | .Running =>
    { info with pid := some pid }
  | .Stopped =>
    { info with
      pid := some pid
      status := .Running
      end_time := none }

/-- `Info::set_finished` (`src/service/info.rs:127-142`); the fall-through
arms only emit a log line and leave the state unchanged. -/
def set_finished (info : Info) (now : Nat) : Info :=
  match info.status with
  | .Running | .Stopped =>
    { info with pid := none, status := .Finished, end_time := some now }
  | _ => info

/-- `Info::set_stopped` (`src/service/info.rs:144-158`). -/
def set_stopped (info : Info) (now : Nat) : Info :=
  match info.status with
  | .Running =>
    { info with status := .Stopped, end_time := some now }
  | _ => info

/-- `Info::set_crashed` (`src/service/info.rs:160-175`). -/
def set_crashed (info : Info) (now : Nat) : Info :=
  match info.status with
  | .Running | .Stopped =>
    { info with pid := none, status := .Crashed, end_time := some now }
  | _ => info

end Info

/-- `SIGTERM` signal number used by `Service::set_terminated`. -/
def SIGTERM : Nat := 15

/-- A decoded child wait status.  The libc macros `WIFEXITED`,
`WIFSIGNALED`, `WIFSTOPPED` and `WIFCONTINUED` used in
`Service::set_terminated` partition the raw `c_int`; the four cases are
modelled as constructors, with `WEXITSTATUS`/`WTERMSIG` as payloads. -/
inductive WaitStatus where
  | exited (code : Nat)
  | signaled (sig : Nat)
  | stopped
  | continued
deriving DecidableEq, Repr

namespace Service

/-- `Service::set_terminated` (`src/service.rs:295-336`).  When the reaped
pid does not match the recorded one only a trace line is emitted; otherwise
the wait status drives the `Info` transition. -/
def set_terminated (info : Info) (pid : Nat) (ws : WaitStatus) (now : Nat) : Info :=
  if info.pid = some pid then
    match ws with
    | .signaled sig =>
      if sig = SIGTERM then info.set_finished now else info.set_crashed now
    | .exited code =>
      if code = 0 then info.set_finished now else info.set_crashed now
    | .stopped => info.set_stopped now
    | .continued => info.set_running pid now
  else
    info

end Service

/-- The runtime invariants stated in spec §3:
`pid.is_some() ⇔ status ∈ {Running, Stopped}` and
`end_time.is_some() ⇒ status ∈ {Finished, Crashed, Stopped}`. -/
def InfoInv (info : Info) : Prop :=
  (info.pid.isSome ↔ (info.status = .Running ∨ info.status = .Stopped)) ∧
  (info.end_time.isSome →
    (info.status = .Finished ∨ info.status = .Crashed ∨ info.status = .Stopped))

instance (info : Info) : Decidable (InfoInv info) := by
  unfold InfoInv; infer_instance

/-- One state-changing operation on a service `Info`, with the wall-clock
reading made explicit. -/
inductive InfoOp where
  | running (pid : Nat) (now : Nat)
  | finished (now : Nat)
  | stopped (now : Nat)
  | crashed (now : Nat)
deriving DecidableEq, Repr

/-- Apply one operation to an `Info`. -/
def applyInfoOp (info : Info) : InfoOp → Info
  | .running pid now => info.set_running pid now
  | .finished now => info.set_finished now
  | .stopped now => info.set_stopped now
  | .crashed now => info.set_crashed now

/-- `SchedulerEvent` from `src/monitor/scheduler.rs:45-72`.  The
`date_time` payload of `ServiceSchedule` (a `DateTime<Local>`) is kept as
an integer timestamp; instants are `Nat`. -/
inductive SchedulerEvent where
  | serviceSchedule (id : Nat) (instant : Nat) (date_time : Int)
  | serviceRestart (id : Nat) (instant : Nat)
  | watchServiceRestart (id : Nat) (instant : Nat)
  | sysinfo (instant : Nat)
  | clockCheck (instant : Nat)
deriving DecidableEq, Repr

namespace SchedulerEvent

/-- `SchedulerEvent::id` (`src/monitor/scheduler.rs:75-82`). -/
def idOf : SchedulerEvent → Option Nat
  | .serviceSchedule id _ _ => some id
  | .serviceRestart id _ => some id
  | .watchServiceRestart id _ => some id
  | _ => none

/-- `SchedulerEvent::instant` (`src/monitor/scheduler.rs:84-92`). -/
def instant : SchedulerEvent → Nat
  | .serviceSchedule _ i _ => i
  | .serviceRestart _ i => i
  | .watchServiceRestart _ i => i
  | .sysinfo i => i
  | .clockCheck i => i

/-- `SchedulerEvent::is_source_eq` (`src/monitor/scheduler.rs:94-112`):
same variant, and for the service-carrying variants also the same id. -/
def is_source_eq : SchedulerEvent → SchedulerEvent → Bool
  | .serviceSchedule id _ _, .serviceSchedule id' _ _ => id == id'
  | .serviceSchedule _ _ _, _ => false
  | .serviceRestart id _, .serviceRestart id' _ => id == id'
  | .serviceRestart _ _, _ => false
  | .watchServiceRestart id _, .watchServiceRestart id' _ => id == id'
  | .watchServiceRestart _ _, _ => false
  | .sysinfo _, .sysinfo _ => true
  | .sysinfo _, _ => false
  | .clockCheck _, .clockCheck _ => true
  | .clockCheck _, _ => false

end SchedulerEvent

namespace Scheduler

/-- The contents of the scheduler's `BinaryHeap`, as a list.  `retain`
keeps the elements satisfying the predicate and `push` adds one element,
so the heap's multiset of elements is modelled faithfully by a list. -/
abbrev Queue := List SchedulerEvent

/-- `Scheduler::enqueue` (`src/monitor/scheduler.rs:186-193`): all events
from the same source are removed before the new one is pushed.  (The Rust
function also reports whether the new event became the head; the queue
contents are what the claims are about.) -/
def enqueue (q : Queue) (event : SchedulerEvent) : Queue :=
  q.filter (fun evt => !(evt.is_source_eq event)) ++ [event]

/-- `Scheduler::remove` (`src/monitor/scheduler.rs:195-198`): keep the
events whose id is absent (`Sysinfo`, `ClockCheck`) or differs. -/
def remove (q : Queue) (service : Nat) : Queue :=
  q.filter (fun evt => evt.idOf.elim true (fun id => id != service))

end Scheduler

/-- `GlobSet` from `src/utils/globset.rs`: a vector of compiled matchers
from the external `globset` crate.  Each matcher is modelled as its
path-matching function (paths are strings). -/
structure GlobSet where
  matchers : List (String → Bool)

/-- `GlobSet::is_match` (`src/utils/globset.rs:43-46`). -/
def GlobSet.is_match (g : GlobSet) (path : String) : Bool :=
  g.matchers.any (fun m => m path)

/-- Model of the `globset` crate's semantics for the pattern `".*"` with
default options (`*` also matches `/`): the path starts with a dot. -/
def globDotStar (path : String) : Bool :=
  path.startsWith "."

/-- Model of the `globset` semantics for `"**/{build,target}*"`: some
path component starts with `build` or `target`. -/
def globBuildTarget (path : String) : Bool :=
  (path.splitOn "/").any (fun c => c.startsWith "build" || c.startsWith "target")

/-- Model of the `globset` semantics for `"*.o"` with default options:
the path ends in `.o`. -/
def globObj (path : String) : Bool :=
  path.endsWith ".o"

/-- `DEFAULT_EXCLUDE` (`src/service/watch.rs:37-38`):
`[".*", "**/{build,target}*", "*.o"]`. -/
def DEFAULT_EXCLUDE : GlobSet :=
  ⟨[globDotStar, globBuildTarget, globObj]⟩

/-- `Watch` from `src/service/watch.rs:43-52`. -/
structure Watch where
  exclude : Option GlobSet
  include_set : Option GlobSet
  paths : List String
  max_depth : Nat

/-- `Watch::is_excluded` (`src/service/watch.rs:71-76`). -/
def Watch.is_excluded (w : Watch) (path : String) : Bool :=
  !(w.include_set.elim false (fun g => g.is_match path)) &&
    ((w.exclude.elim false (fun g => g.is_match path)) ||
      DEFAULT_EXCLUDE.is_match path)

/-- State of a `LogFile` (`src/monitor/logger/logfile.rs:43-50`) together
with its log directory.  Filenames carry a timestamp
(`<service>-<RFC3339>.log`) and sort chronologically, so a name is
modelled as its timestamp (`Nat`); `dir` is the directory listing
restricted to this service's files — name paired with on-disk size —
in the sorted order `list_files` produces. -/
structure LogState where
  file : Option Nat
  written : Nat
  max_size : Nat
  max_files : Nat
  dir : List (Nat × Nat)
deriving DecidableEq, Repr

namespace LogState

/-- The branch of `LogFile::rotate` that prunes old files and opens a
fresh one (`src/monitor/logger/logfile.rs:156-193`).  `remove_file` is
applied to the first `len - (max_files - 1)` (saturating) names; opening
with `truncate(true)` replaces any file that already bears the new name. -/
def newFile (s : LogState) (files : List (Nat × Nat)) (now : Nat) : LogState :=
  let keep := files.drop (files.length - (s.max_files - 1))
  { s with
    dir := keep.filter (fun p => p.1 ≠ now) ++ [(now, 0)]
    file := some now
    written := 0 }

/-- `LogFile::rotate` (`src/monitor/logger/logfile.rs:133-205`), with file
system calls assumed to succeed.  If the current file is open and under
`max_size` nothing happens; otherwise either the most recent existing
file is reopened for append (when it is under the cap) or old files are
pruned and a fresh one is created. -/
def rotate (s : LogState) (now : Nat) : LogState :=
  if s.file.isSome ∧ s.written < s.max_size then s
  else
    let files := s.dir
    match files.getLast? with
    | some (name, size) =>
      if size < s.max_size then { s with file := some name, written := size }
      else s.newFile files now
    | none => s.newFile files now

/-- Grow the recorded on-disk size of file `name` by `n` bytes. -/
def bumpSize (dir : List (Nat × Nat)) (name : Nat) (n : Nat) : List (Nat × Nat) :=
  dir.map (fun p => if p.1 = name then (p.1, p.2 + n) else p)

/-- `LogFile::write` (`src/monitor/logger/logfile.rs:207-217`): rotate,
then append the data (`n` bytes, written in full) to the current file. -/
def write (s : LogState) (now : Nat) (n : Nat) : LogState :=
  let s := s.rotate now
  match s.file with
  | some name => { s with written := s.written + n, dir := bumpSize s.dir name n }
  | none => s

end LogState

/-- The process-wide `(Instant, SystemTime)` reference pair of
`src/utils/serializers/instant.rs:34`, passed explicitly.  Both clocks
are in milliseconds. -/
abbrev RefTime := Nat × Nat

/-- `MAX_DRIFT` (`src/utils/serializers/instant.rs:35`): 10 ms. -/
def MAX_DRIFT : Nat := 10

/-- `from_systime` (`src/utils/serializers/instant.rs:69-84`) with the
reference pair explicit.  The Rust code unwraps a `checked_sub`; the
panicking case is `none`. -/
def from_systime (ref : RefTime) (systime : Nat) : Option Nat :=
  if ref.2 ≥ systime then
    if ref.2 - systime ≤ ref.1 then some (ref.1 - (ref.2 - systime)) else none
  else
    some (ref.1 + (systime - ref.2))

/-- `to_systime` (`src/utils/serializers/instant.rs:86-96`) with the
reference pair explicit. -/
def to_systime (ref : RefTime) (instant : Nat) : Option Nat :=
  if ref.1 ≥ instant then
    if ref.1 - instant ≤ ref.2 then some (ref.2 - (ref.1 - instant)) else none
  else
    some (ref.2 + (instant - ref.1))

/-- The absolute drift computed in `check_ref_time`
(`src/utils/serializers/instant.rs:52-56`). -/
def driftOf (converted check : Nat) : Nat :=
  if converted ≥ check then converted - check else check - converted

/-- `check_ref_time` (`src/utils/serializers/instant.rs:48-67`).  The two
clock readings taken at entry are `check_instant`/`check_time`, and
`fresh` is the pair `update_ref_instant` would store.  Returns the `bool`
result together with the reference pair left in place; `none` when the
inner `from_systime` would panic. -/
def check_ref_time (ref : RefTime) (check_instant check_time : Nat)
    (fresh : RefTime) : Option (Bool × RefTime) :=
  (from_systime ref check_time).map (fun converted =>
    if driftOf converted check_instant ≥ MAX_DRIFT then (false, fresh)
    else (true, ref))

namespace Monitor

/-- `Monitor::next_restart` (`src/monitor.rs:170-173`):
`info.end_time.unwrap_or(now) + restart_interval * (1 << (crashed - 1))`.
`1 << (crashed - 1)` is `2 ^ (crashed - 1)`; the theorems assume
`1 ≤ crashed` (the Rust subtraction would otherwise underflow) and
`crashed ≤ 32` (the shift would otherwise overflow its `u32`). -/
def next_restart (restart_interval : Nat) (now : Nat) (end_time : Option Nat)
    (crashed : Nat) : Nat :=
  end_time.getD now + restart_interval * 2 ^ (crashed - 1)

/-- Modelled from the spec: `Scheduler::schedule_restart` is absent from
the sources (only its caller `Monitor::waitpid` and the deadline helper
`Monitor::next_restart` are present).  Per spec §4.6 it enqueues a
`CrashRestart` for the service at the `next_restart` deadline. -/
def schedule_restart (q : Scheduler.Queue) (id : Nat) (restart_interval : Nat)
    (now : Nat) (end_time : Option Nat) (crashed : Nat) : Scheduler.Queue :=
  Scheduler.enqueue q
    (.serviceRestart id (next_restart restart_interval now end_time crashed))

/-- The tail of `Monitor::waitpid` (`src/monitor.rs:161-163`): after a
child is reaped, if the service's resulting status is `Crashed` the
restart is scheduled, otherwise the queue is untouched. -/
def onReaped (q : Scheduler.Queue) (statusAfter : Status) (id : Nat)
    (restart_interval : Nat) (now : Nat) (end_time : Option Nat)
    (crashed : Nat) : Scheduler.Queue :=
  if statusAfter = .Crashed then
    schedule_restart q id restart_interval now end_time crashed
  else q

end Monitor

namespace Service

/-- `Service::stop` (`src/service.rs:249-267`): clear `active`, then — if
a pid is recorded — signal the child and poll `waitpid`.  The outcome of
that race is the oracle `reaped`: `some ws` when a `waitpid` result was
obtained (driving `set_terminated`), `none` when the child was already
gone or the timeouts elapsed. -/
def stop (info : Info) (reaped : Option WaitStatus) (now : Nat) : Info :=
  let info := { info with active := false }
  match info.pid, reaped with
  | some pid, some ws => set_terminated info pid ws now
  | _, _ => info

/-- `Service::restart` (`src/service.rs:189-236`).  Oracles: `reaped` is
the wait-status observed by the preliminary `stop` (when a pid was set),
`launcher` tells whether `LAUNCHER_EXE` resolved, and `spawned` is the
child pid when `cmd.spawn()` succeeded.  Returns the resulting `Info`
together with the list of scheduler events enqueued during the call —
the function never touches the scheduler, so that list is always empty. -/
def restart (info : Info) (reaped : Option WaitStatus) (launcher : Bool)
    (spawned : Option Nat) (now : Nat) : Info × List SchedulerEvent :=
  let info := if info.pid.isSome then stop info reaped now else info
  if launcher then
    match spawned with
    | some child =>
      (Info.set_running { info with active := true } child now, [])
    | none => (info, [])
  else (info, [])

end Service

/-- The monitor state visible to the removal paths: the service map
(ids with their `Info`), the scheduler queue, and the set of registered
watches (`Watcher` keeps one entry per service id). -/
structure MonState where
  services : List (Nat × Info)
  queue : Scheduler.Queue
  watches : List Nat
deriving Repr

namespace Monitor

/-- `Monitor::remove` (`src/monitor.rs:331-336`): drop the service from
the map, then `scheduler.remove` and `remove_watch`.  No signal is sent
to the process on this path. -/
def remove (m : MonState) (id : Nat) : MonState :=
  { services := m.services.filter (fun p => p.1 ≠ id)
    queue := Scheduler.remove m.queue id
    watches := m.watches.filter (fun w => w ≠ id) }

/-- The `Action::Remove` handler of the control server
(`src/cmdline/server.rs:200-206`): `service.stop()` followed by
`monitor.services.remove(&service.id)` — the scheduler queue and the
watcher are not touched. -/
def serverRemove (m : MonState) (id : Nat) (reaped : Option WaitStatus)
    (now : Nat) : MonState :=
  { m with
    services :=
      (m.services.map (fun p =>
        if p.1 = id then (p.1, Service.stop p.2 reaped now) else p)).filter
        (fun p => p.1 ≠ id) }

end Monitor

/-! ## Theorems -/

theorem infoInv_default : InfoInv Info.default := by decide

theorem infoInv_applyInfoOp (info : Info) (op : InfoOp) (h : InfoInv info) :
    InfoInv (applyInfoOp info op) := by
  obtain ⟨h1, h2⟩ := h
  cases op with
  | running pid now =>
    simp only [applyInfoOp, Info.set_running]
    cases hst : info.status <;> simp_all [InfoInv]
  | finished now =>
    simp only [applyInfoOp, Info.set_finished]
    cases hst : info.status <;> simp_all [InfoInv]
  | stopped now =>
    simp only [applyInfoOp, Info.set_stopped]
    cases hst : info.status <;> simp_all [InfoInv]
  | crashed now =>
    simp only [applyInfoOp, Info.set_crashed]
    cases hst : info.status <;> simp_all [InfoInv]

/-- C3: starting from the default `Info`, every sequence of
state-changing operations (`set_running`, `set_finished`, `set_stopped`,
`set_crashed`) preserves the invariant `pid.is_some() ⇔ status ∈
{Running, Stopped}` and `end_time.is_some() ⇒ status ∈ {Finished,
Crashed, Stopped}`. -/
theorem c3_info_invariant (ops : List InfoOp) :
    InfoInv (ops.foldl applyInfoOp Info.default) := by
  have h : ∀ (info : Info), InfoInv info → InfoInv (ops.foldl applyInfoOp info) := by
    induction ops with
    | nil => exact fun _ h => h
    | cons op rest ih => exact fun info h => ih _ (infoInv_applyInfoOp info op h)
  exact h _ infoInv_default

/-- The status the spec's state-machine table (§4.3) prescribes for a
wait-status observed while the service is `Running` or `Stopped`. -/
def specStatusAfterWait : WaitStatus → Status
  | .exited code => if code = 0 then .Finished else .Crashed
  | .signaled sig => if sig = SIGTERM then .Finished else .Crashed
  | .stopped => .Stopped
  | .continued => .Running

/-- C1: `set_terminated` applied while the status is `Running` or
`Stopped` (with the reaped pid matching) follows the spec table: exit 0
or signal `TERM` gives `Finished`, non-zero exit or another signal gives
`Crashed`, a stop notification gives `Stopped`, a continue notification
gives `Running`; applied while the status is `Created`, `Finished` or
`Crashed` (where the invariant forces `pid = None`) the status is left
unchanged. -/
theorem c1_set_terminated_table (info : Info) (pid now : Nat) (ws : WaitStatus)
    (hinv : InfoInv info) :
    ((info.status = .Running ∨ info.status = .Stopped) → info.pid = some pid →
      (Service.set_terminated info pid ws now).status = specStatusAfterWait ws) ∧
    ((info.status = .Created ∨ info.status = .Finished ∨ info.status = .Crashed) →
      (Service.set_terminated info pid ws now).status = info.status) := by
  obtain ⟨h1, h2⟩ := hinv
  constructor
  · intro hst hpid
    simp only [Service.set_terminated, hpid, if_pos rfl, specStatusAfterWait]
    cases ws with
    | exited code =>
      rcases Nat.eq_zero_or_pos code with hc | hc
      · subst hc
        rcases hst with h | h <;>
          simp [Info.set_finished, h]
      · have hc' : code ≠ 0 := Nat.pos_iff_ne_zero.mp hc
        rcases hst with h | h <;>
          simp [Info.set_crashed, h, hc']
    | signaled sig =>
      by_cases hsig : sig = SIGTERM
      · rcases hst with h | h <;>
          simp [Info.set_finished, h, hsig]
      · rcases hst with h | h <;>
          simp [Info.set_crashed, h, hsig]
    | stopped =>
      rcases hst with h | h <;> simp [Info.set_stopped, h]
    | continued =>
      rcases hst with h | h <;> simp [Info.set_running, h]
  · intro hst
    have hpid : info.pid = none := by
      cases hp : info.pid with
      | none => rfl
      | some q =>
        exfalso
        have hrs : info.status = .Running ∨ info.status = .Stopped := h1.mp (by simp [hp])
        rcases hst with h | h | h <;> rcases hrs with h' | h' <;> rw [h] at h' <;>
          exact absurd h' (by decide)
    simp [Service.set_terminated, hpid]

/-- C1 witness: a `Running` service whose child exits with code 0 is
`Finished`. -/
theorem c1_witness :
    (Service.set_terminated ⟨some 7, true, .Running, some 1, none, 1⟩ 7
      (.exited 0) 9).status = .Finished :=
  (c1_set_terminated_table ⟨some 7, true, .Running, some 1, none, 1⟩ 7 9
    (.exited 0) (by decide)).1 (Or.inl rfl) rfl

/-- C2 counterexample: entering `Running` from `Stopped` does change
`end_time` — `set_running` clears it (`src/service/info.rs:122`),
contradicting the claim that from `Stopped` all of `start_time`,
`end_time`, `restarts` are unchanged. -/
theorem c2_counterexample :
    (⟨some 1, true, .Stopped, some 3, some 5, 1⟩ : Info).status = .Stopped ∧
    ((⟨some 1, true, .Stopped, some 3, some 5, 1⟩ : Info).set_running 2 9).end_time ≠
      (⟨some 1, true, .Stopped, some 3, some 5, 1⟩ : Info).end_time := by
  decide

/-- C2 (amended): entering `Running` from `Created`, `Finished` or
`Crashed` sets `pid` and `start_time`, clears `end_time` and increments
`restarts` by one — `Info` has no `crashed` counter, so coming from
`Crashed` has no additional effect; entering `Running` from `Stopped`
leaves `start_time` and `restarts` unchanged but sets `pid` and clears
`end_time`. -/
theorem c2_set_running_effects (info : Info) (pid now : Nat) :
    ((info.status = .Created ∨ info.status = .Finished ∨ info.status = .Crashed) →
      info.set_running pid now =
        { info with
          pid := some pid
          start_time := some now
          restarts := info.restarts + 1
          status := .Running
          end_time := none }) ∧
    (info.status = .Stopped →
      info.set_running pid now =
        { info with pid := some pid, status := .Running, end_time := none }) := by
  constructor
  · intro hst
    rcases hst with h | h | h <;> simp [Info.set_running, h]
  · intro hst
    simp [Info.set_running, hst]

/-- C2 witness: from `Stopped`, `set_running` sets the pid, clears
`end_time` and leaves `start_time` and `restarts` alone. -/
theorem c2_witness :
    (⟨some 1, true, .Stopped, some 3, some 5, 4⟩ : Info).set_running 2 9 =
      ⟨some 2, true, .Running, some 3, none, 4⟩ :=
  (c2_set_running_effects ⟨some 1, true, .Stopped, some 3, some 5, 4⟩ 2 9).2 rfl

theorem is_source_eq_self (e : SchedulerEvent) : e.is_source_eq e = true := by
  cases e <;> simp [SchedulerEvent.is_source_eq]

theorem count_remove (q : Scheduler.Queue) (id : Nat) (x : SchedulerEvent) :
    (Scheduler.remove q id).count x =
      (if x.idOf = some id then 0 else q.count x) := by
  by_cases hx : x.idOf = some id
  · have hnot : x ∉ Scheduler.remove q id := by
      intro hmem
      have := (List.mem_filter.mp hmem).2
      simp [hx] at this
    simp [hx, List.count_eq_zero.mpr hnot]
  · have hpx : (x.idOf.elim true (fun i => i != id)) = true := by
      cases h : x.idOf with
      | none => simp
      | some j =>
        simp only [Option.elim, bne_iff_ne, ne_eq]
        intro hji
        exact hx (by rw [h, hji])
    rw [if_neg hx]
    exact List.count_filter hpx

/-- Recognize a `ServiceRestart` (the spec's `CrashRestart`) for a given
service id. -/
def isRestartFor (id : Nat) : SchedulerEvent → Bool
  | .serviceRestart i _ => i == id
  | _ => false

theorem isRestartFor_and_not_source (a : SchedulerEvent) (id inst : Nat) :
    (isRestartFor id a && !(a.is_source_eq (.serviceRestart id inst))) = false := by
  cases a <;> simp [isRestartFor, SchedulerEvent.is_source_eq]

/-- C4: when a reaped child leaves its service `Crashed`, the monitor
enqueues a restart, and the queue then holds exactly one
`ServiceRestart` for that service, with deadline
`end_time.unwrap_or(now) + restart_interval * 2^(crashed - 1)`.
(The hypotheses keep `crashed` inside the domain where the Rust
`1 << (crashed - 1)` neither underflows nor overflows.) -/
theorem c4_crash_restart (q : Scheduler.Queue) (id ri now : Nat)
    (end_time : Option Nat) (crashed : Nat)
    (_hc1 : 1 ≤ crashed) (_hc2 : crashed ≤ 32) :
    (Monitor.onReaped q .Crashed id ri now end_time crashed).filter (isRestartFor id) =
      [.serviceRestart id (end_time.getD now + ri * 2 ^ (crashed - 1))] := by
  simp only [Monitor.onReaped, if_pos rfl, if_true, Monitor.schedule_restart,
    Scheduler.enqueue, Monitor.next_restart]
  rw [List.filter_append, List.filter_filter]
  have hnil :
      q.filter (fun a =>
        isRestartFor id a &&
          !(a.is_source_eq
            (.serviceRestart id (end_time.getD now + ri * 2 ^ (crashed - 1))))) = [] := by
    apply List.filter_eq_nil_iff.mpr
    intro a _
    simp [isRestartFor_and_not_source]
  rw [hnil]
  simp [isRestartFor]

/-- C4 witness: a crash with `crashed = 3`, `end_time = 17`,
`restart_interval = 5` schedules the single restart at `17 + 5 * 4`. -/
theorem c4_witness :
    (Monitor.onReaped [.sysinfo 2, .serviceRestart 8 4] .Crashed 8 5 30
      (some 17) 3).filter (isRestartFor 8) = [.serviceRestart 8 37] :=
  c4_crash_restart [.sysinfo 2, .serviceRestart 8 4] 8 5 30 (some 17) 3
    (by decide) (by decide)

/-- C5: `enqueue` leaves exactly one event with the new event's source in
the queue and preserves every event of a different source; `remove`
drops exactly the events whose source id matches, leaving `Sysinfo`,
`ClockCheck` and other services' events untouched. -/
theorem c5_source_uniqueness (q : Scheduler.Queue) (e x : SchedulerEvent) (id : Nat) :
    (Scheduler.enqueue q e).filter (fun evt => evt.is_source_eq e) = [e] ∧
    (Scheduler.enqueue q e).filter (fun evt => !(evt.is_source_eq e)) =
      q.filter (fun evt => !(evt.is_source_eq e)) ∧
    (Scheduler.remove q id).count x =
      (if x.idOf = some id then 0 else q.count x) := by
  refine ⟨?_, ?_, ?_⟩
  · simp only [Scheduler.enqueue, List.filter_append, List.filter_filter]
    have hnil :
        q.filter (fun a => a.is_source_eq e && !(a.is_source_eq e)) = [] := by
      apply List.filter_eq_nil_iff.mpr
      intro a _
      simp
    rw [hnil]
    simp [is_source_eq_self]
  · simp only [Scheduler.enqueue, List.filter_append, List.filter_filter]
    simp [is_source_eq_self]
  · exact count_remove q id x

/-- C6: a filesystem event on `p` fires a restart (`is_excluded` is
false) iff the explicit `include` set matches `p`, or neither the
explicit `exclude` set nor the built-in default exclude
(`.*`, `**/{build,target}*`, `*.o`) matches `p`; in particular an
include match always wins. -/
theorem c6_watch_filter (w : Watch) (p : String) :
    (w.is_excluded p = false ↔
      ((w.include_set.elim false (fun g => g.is_match p)) = true ∨
        ((w.exclude.elim false (fun g => g.is_match p)) = false ∧
          DEFAULT_EXCLUDE.is_match p = false))) ∧
    ((w.include_set.elim false (fun g => g.is_match p)) = true →
      w.is_excluded p = false) := by
  simp only [Watch.is_excluded]
  cases h1 : (w.include_set.elim false (fun g => g.is_match p)) <;>
    cases h2 : (w.exclude.elim false (fun g => g.is_match p)) <;>
      cases h3 : DEFAULT_EXCLUDE.is_match p <;> simp

/-- C6 witness: a watch whose `include` matches everything lets even a
dotfile through. -/
theorem c6_witness :
    Watch.is_excluded ⟨none, some ⟨[fun _ => true]⟩, [], 4⟩ ".hidden" = false :=
  (c6_watch_filter ⟨none, some ⟨[fun _ => true]⟩, [], 4⟩ ".hidden").2 rfl

/-- C7 counterexample: removing service 1 through the control channel
(`Action::Remove`, `src/cmdline/server.rs:200-206`) leaves its
`ServiceRestart` scheduler event and its watch registration in place,
against the claim that every removal path purges both. -/
theorem c7_counterexample :
    (Monitor.serverRemove
        ⟨[(1, ⟨some 5, true, .Running, some 1, none, 1⟩)],
          [.serviceRestart 1 50], [1]⟩ 1 none 9).queue =
        [.serviceRestart 1 50] ∧
    (Monitor.serverRemove
        ⟨[(1, ⟨some 5, true, .Running, some 1, none, 1⟩)],
          [.serviceRestart 1 50], [1]⟩ 1 none 9).watches = [1] ∧
    (Monitor.serverRemove
        ⟨[(1, ⟨some 5, true, .Running, some 1, none, 1⟩)],
          [.serviceRestart 1 50], [1]⟩ 1 none 9).services = [] := by
  decide

/-- C7 (amended): `Monitor::remove` takes the service out of the map and
purges both its scheduler events and its watch, but sends it no signal;
removal over the control channel stops (signals) the service first and
takes it out of the map, but leaves its scheduler events and its watch
in place. -/
theorem c7_remove_paths (m : MonState) (id : Nat) (reaped : Option WaitStatus)
    (now : Nat) (x : SchedulerEvent) :
    ((Monitor.remove m id).queue.count x =
      (if x.idOf = some id then 0 else m.queue.count x)) ∧
    (Monitor.remove m id).watches = m.watches.filter (fun w => w ≠ id) ∧
    (∀ p ∈ (Monitor.remove m id).services, p.1 ≠ id) ∧
    (Monitor.serverRemove m id reaped now).queue = m.queue ∧
    (Monitor.serverRemove m id reaped now).watches = m.watches ∧
    (∀ p ∈ (Monitor.serverRemove m id reaped now).services, p.1 ≠ id) := by
  refine ⟨count_remove m.queue id x, rfl, ?_, rfl, rfl, ?_⟩
  · intro p hp
    have := (List.mem_filter.mp hp).2
    simpa using this
  · intro p hp
    have := (List.mem_filter.mp hp).2
    simpa using this

/-- C7 witness: on the `Monitor::remove` path the service's pending
restart event is gone. -/
theorem c7_witness :
    (Monitor.remove
        ⟨[(1, ⟨some 5, true, .Running, some 1, none, 1⟩)],
          [.serviceRestart 1 50], [1]⟩ 1).queue.count (.serviceRestart 1 50) = 0 := by
  have h := (c7_remove_paths
    ⟨[(1, ⟨some 5, true, .Running, some 1, none, 1⟩)],
      [.serviceRestart 1 50], [1]⟩ 1 none 9 (.serviceRestart 1 50)).1
  simpa using h

/-- C8 counterexample: a `Running` service (pid recorded) whose launcher
is unavailable is **not** left exactly as it was by `restart()` — the
preliminary `stop()` clears `active` (and reaps the child), contradicting
the claim. -/
theorem c8_counterexample :
    (Service.restart ⟨some 5, true, .Running, some 1, none, 1⟩
        (some (.signaled 15)) false none 9).1 ≠
      ⟨some 5, true, .Running, some 1, none, 1⟩ := by
  decide

/-- C8 (amended): when spawning fails (no launcher, or the spawn call
errors), the failure is only logged: no scheduler event is enqueued, the
`Info` is exactly what the preliminary `stop` of a previously running
child left (and when the service had no recorded pid, the `Info` is
exactly unchanged). -/
theorem c8_spawn_failure (info : Info) (reaped : Option WaitStatus)
    (launcher : Bool) (spawned : Option Nat) (now : Nat)
    (hfail : launcher = false ∨ spawned = none) :
    (Service.restart info reaped launcher spawned now).2 = [] ∧
    (Service.restart info reaped launcher spawned now).1 =
      (if info.pid.isSome then Service.stop info reaped now else info) ∧
    (info.pid = none → (Service.restart info reaped launcher spawned now).1 = info) := by
  have hbody :
      (Service.restart info reaped launcher spawned now) =
        ((if info.pid.isSome then Service.stop info reaped now else info), []) := by
    rcases hfail with h | h
    · subst h
      simp [Service.restart]
    · subst h
      cases launcher <;> simp [Service.restart]
  refine ⟨by rw [hbody], by rw [hbody], ?_⟩
  intro hpid
  rw [hbody]
  simp [hpid]

/-- C8 witness: with no recorded pid and no launcher, `restart` changes
nothing and enqueues nothing. -/
theorem c8_witness :
    (Service.restart Info.default none false none 3).1 = Info.default ∧
    (Service.restart Info.default none false none 3).2 = [] :=
  ⟨(c8_spawn_failure Info.default none false none 3 (Or.inl rfl)).2.2 rfl,
    (c8_spawn_failure Info.default none false none 3 (Or.inl rfl)).1⟩

/-- C9 counterexample: with `max_size = 10`, a file holding 5 bytes and
an incoming 20-byte write — which makes the file exceed the cap — no new
file is opened: `rotate` only checks the bytes already written
(`src/monitor/logger/logfile.rs:134`), so the data lands in the same
file, which ends at 25 bytes. -/
theorem c9_counterexample :
    (⟨some 100, 5, 10, 2, [(100, 5)]⟩ : LogState).max_size <
      (⟨some 100, 5, 10, 2, [(100, 5)]⟩ : LogState).written + 20 ∧
    ((⟨some 100, 5, 10, 2, [(100, 5)]⟩ : LogState).write 101 20).file = some 100 ∧
    ((⟨some 100, 5, 10, 2, [(100, 5)]⟩ : LogState).write 101 20).dir = [(100, 25)] := by
  decide

/-- C9 (amended): rotation is triggered by the bytes already written —
on a write issued while the current (newest) file has reached
`max_file_size`, a fresh timestamped file is opened before the data is
written, the data goes to the fresh file, the oldest files are pruned
(only the newest `max_files - 1` survive) and at most `max_files` files
remain. -/
theorem c9_rotation (s : LogState) (now n f : Nat)
    (_hopen : s.file = some f) (hfull : s.max_size ≤ s.written)
    (hlast : ∃ nm sz, s.dir.getLast? = some (nm, sz) ∧ s.max_size ≤ sz)
    (hmf : 1 ≤ s.max_files) (hfresh : ∀ p ∈ s.dir, p.1 ≠ now) :
    (s.write now n).file = some now ∧
    (s.write now n).written = n ∧
    (s.write now n).dir =
      s.dir.drop (s.dir.length - (s.max_files - 1)) ++ [(now, n)] ∧
    (s.write now n).dir.length ≤ s.max_files := by
  obtain ⟨nm, sz, hl, hsz⟩ := hlast
  have hkeep :
      (s.dir.drop (s.dir.length - (s.max_files - 1))).filter
        (fun p => p.1 ≠ now) = s.dir.drop (s.dir.length - (s.max_files - 1)) := by
    apply List.filter_eq_self.mpr
    intro p hp
    simpa using hfresh p (List.drop_subset _ _ hp)
  have hrot : s.rotate now = s.newFile s.dir now := by
    simp only [LogState.rotate, hl]
    rw [if_neg (by intro h; exact absurd h.2 (Nat.not_lt.mpr hfull)),
      if_neg (Nat.not_lt.mpr hsz)]
  have hnew : s.newFile s.dir now =
      { s with
        dir := s.dir.drop (s.dir.length - (s.max_files - 1)) ++ [(now, 0)]
        file := some now
        written := 0 } := by
    simp only [LogState.newFile, hkeep]
  have hbump :
      LogState.bumpSize
          (s.dir.drop (s.dir.length - (s.max_files - 1)) ++ [(now, 0)]) now n =
        s.dir.drop (s.dir.length - (s.max_files - 1)) ++ [(now, n)] := by
    simp only [LogState.bumpSize, List.map_append]
    congr 1
    · rw [List.map_congr_left (g := id) ?_]
      · exact List.map_id _
      · intro p hp
        have hne := hfresh p (List.drop_subset _ _ hp)
        simp [hne]
    · simp
  have hw : s.write now n =
      { s with
        dir := s.dir.drop (s.dir.length - (s.max_files - 1)) ++ [(now, n)]
        file := some now
        written := n } := by
    simp only [LogState.write, hrot, hnew]
    simp [hbump]
  refine ⟨by rw [hw], by rw [hw], by rw [hw], ?_⟩
  rw [hw]
  simp only [List.length_append, List.length_drop, List.length_cons,
    List.length_nil]
  omega

/-- C9 witness: two full files with `max_files = 2`; a write rotates to a
third file, prunes the oldest, and two files remain. -/
theorem c9_witness :
    ((⟨some 100, 10, 10, 2, [(90, 10), (100, 10)]⟩ : LogState).write 101 3).dir =
      [(100, 10), (101, 3)] :=
  ((c9_rotation ⟨some 100, 10, 10, 2, [(90, 10), (100, 10)]⟩ 101 3 100
    rfl (by decide) ⟨100, 10, by decide, by decide⟩ (by decide)
    (by decide)).2.2.1).trans (by decide)

/-- C10 counterexample: at a drift of exactly 10 ms — which does **not**
exceed 10 ms — `check_ref_time` still refreshes the reference pair and
returns `false`, because the code tests `drift >= MAX_DRIFT`
(`src/utils/serializers/instant.rs:57`). -/
theorem c10_counterexample :
    check_ref_time (0, 1000) 10 1000 (5, 1005) = some (false, (5, 1005)) ∧
    from_systime (0, 1000) 1000 = some 0 ∧
    driftOf 0 10 = MAX_DRIFT := by
  decide

/-- C10 (amended): whenever `to_systime` succeeds on a monotonic instant
and the reference pair is unchanged in between, `from_systime` inverts it
exactly (hence within 1 ms); and `check_ref_time` refreshes the
reference pair once and returns `false` iff the observed drift is **at
least** 10 ms (boundary included), leaving it in place otherwise. -/
theorem c10_time_bridge :
    (∀ (ref : RefTime) (i t : Nat),
      to_systime ref i = some t → from_systime ref t = some i) ∧
    (∀ (ref : RefTime) (ci ct : Nat) (fresh : RefTime) (conv : Nat),
      from_systime ref ct = some conv →
      check_ref_time ref ci ct fresh =
        some (if driftOf conv ci ≥ MAX_DRIFT then (false, fresh) else (true, ref))) := by
  constructor
  · intro ref i t h
    simp only [to_systime] at h
    simp only [from_systime]
    split_ifs at h ⊢ <;> simp_all <;> omega
  · intro ref ci ct fresh conv h
    simp only [check_ref_time, h, Option.map]

/-- C10 witness: a concrete exact round-trip and a below-threshold check
that leaves the reference pair alone. -/
theorem c10_witness :
    from_systime (100, 1000) 950 = some 50 ∧
    check_ref_time (100, 1000) 105 1000 (7, 7) = some (true, (100, 1000)) :=
  ⟨c10_time_bridge.1 (100, 1000) 50 950 (by decide),
    (c10_time_bridge.2 (100, 1000) 105 1000 (7, 7) 100 (by decide)).trans
      (by decide)⟩

end Ppm
